import Mathlib

/-!
Shallow embedding of `src/protect-api.ts` (class `ProtectApi`), the UniFi
Protect API client: session credentials, request throttling via a
consecutive-error budget, bootstrap/device synchronisation, the permission
scan deriving admin status, and the realtime-updates listener.

Conventions of the embedding:
* Machine integers of the source are `Nat` (timestamps are `Date.now()`
  milliseconds, counters are non-negative).
* The mutable instance fields of `ProtectApi` become the explicit record
  `ApiState`; every operation takes the state and returns the new state.
* Network I/O is an input to each operation: the transport outcome the
  network would deliver if the request were performed. A `networkCalled`
  flag in the result records whether the source would actually reach its
  `fetch(url, options)` call.
* The numeric settings imported from `./settings` (not part of this source
  tree) are a parameter record `Settings`.
* JavaScript exceptions that escape a function are `Except.error` carrying
  the state at the moment of the throw; logging is an explicit event list.
-/

namespace ProtectApi

/-- Configuration constants imported by the source from `./settings`:
`PROTECT_API_ERROR_LIMIT` and `PROTECT_API_RETRY_INTERVAL` (seconds). -/
structure Settings where
  errorLimit : Nat
  retryInterval : Nat
  deriving DecidableEq, Repr

/-- A camera channel: only `isRtspEnabled` is touched by this core. -/
structure Channel where
  isRtspEnabled : Bool
  deriving DecidableEq, Repr

/-- `ProtectCameraConfig`: the fields of a device record the core reads.
`channels := none` models an `undefined` channel list. -/
structure Camera where
  id : String
  mac : String
  name : String
  modelKey : String
  isManaged : Bool
  channels : Option (List Channel)
  deriving DecidableEq, Repr

/-- `ProtectNvrUserConfig`: a user record; `allPermissions := none` models
an `undefined` permission list. -/
structure NvrUser where
  id : String
  allPermissions : Option (List String)
  deriving DecidableEq, Repr

/-- `ProtectNvrBootstrap`: the decoded bootstrap payload, with the fields
this core reads. `none` components model `undefined` ones. -/
structure Bootstrap where
  cameras : Option (List Camera)
  users : Option (List NvrUser)
  authUserId : String
  lastUpdateId : Option String
  deriving DecidableEq, Repr

/-- The mutable instance fields of class `ProtectApi`. The `Headers`
object is abstracted to the two flags the logic reads (`X-CSRF-Token` and
`Cookie` presence); `eventListener` is whether a WebSocket handle is
currently recorded. -/
structure ApiState where
  apiErrorCount : Nat
  apiLastSuccess : Nat
  loggedIn : Bool
  loginAge : Nat
  isAdminUser : Bool
  bootstrap : Option Bootstrap
  cameras_ : Option (List Camera)
  eventListener : Bool
  eventListenerConfigured : Bool
  headersHasCsrf : Bool
  headersHasCookie : Bool
  deriving DecidableEq, Repr

/-- The logging collaborator's calls, as events (`log.info`, `log.error`,
`this.debug`), keeping the data the claims talk about. -/
inductive LogEvent where
  | throttling
  | resuming
  | invalidLogin
  | insufficientPrivileges
  | apiError (status : Nat)
  | abortTimeout
  | connRefused
  | connReset
  | notFound
  | otherFetchError
  | bootstrapFetchFail
  | bootstrapParseFail
  | bootstrapNoCameras
  | connectedFirstRun
  | adminRequired
  | roleChange (enabled : Bool)
  | updatesConnectFail
  | updatesConnected
  | updatesCatchError
  | updateChannelsFail
  | updateCameraFail
  | discovered (mac : String)
  | removedDebug (mac : String)
  deriving DecidableEq, Repr

/-- `clearLoginCredentials()` (source lines 589-603): resets the session
fields, terminates any event listener, and reinitialises the headers. The
error budget (`apiErrorCount` / `apiLastSuccess`) and the saved camera
list are untouched. -/
def clearLoginCredentials (s : ApiState) : ApiState :=
  { s with
    isAdminUser := false
    loggedIn := false
    loginAge := 0
    bootstrap := none
    eventListener := false
    eventListenerConfigured := false
    headersHasCsrf := false
    headersHasCookie := false }

/-- What the transport (`node-fetch`) would deliver for a request:
a completed HTTP response with a status code, an `AbortError` (our
timeout fired), or a `FetchError` with a system error code. -/
inductive FetchOutcome where
  | response (status : Nat)
  | abortError
  | fetchError (code : String)
  deriving DecidableEq, Repr

/-- `Response.ok` of the fetch API: status in the range [200, 300). -/
def statusOk (status : Nat) : Bool :=
  200 ≤ status && status < 300

/-- Result of `ProtectApi.fetch`: the returned value (`some status` for a
returned `Response`, `none` for `null`), the new state, whether the
network call was actually performed, how many times the error-budget
fields were written, and the log events. -/
structure FetchRet where
  result : Option Nat
  state : ApiState
  networkCalled : Bool
  budgetWrites : Nat
  logs : List LogEvent
  deriving DecidableEq, Repr

/-- The part of `ProtectApi.fetch` from the `fetch(url, options)` call on
(source lines 657-729): outcome classification when `decodeResponse` is
true, raw passthrough when it is false, and the catch-block handling of
`AbortError` and `FetchError`. `now2` is the `Date.now()` evaluated on
the success path (line 685). -/
def fetchAfterThrottle (s : ApiState) (now2 : Nat) (outcome : FetchOutcome)
    (logErrors decodeResponse : Bool) : FetchRet :=
  match outcome with
  | .response status =>
    if !decodeResponse then
      { result := some status, state := s, networkCalled := true,
        budgetWrites := 0, logs := [] }
    else if status = 401 then
      { result := none,
        state := { s with apiErrorCount := s.apiErrorCount + 1 },
        networkCalled := true, budgetWrites := 1, logs := [.invalidLogin] }
    else if status = 403 then
      { result := none,
        state := { s with apiErrorCount := s.apiErrorCount + 1 },
        networkCalled := true, budgetWrites := 1,
        logs := [.insufficientPrivileges] }
    else if !statusOk status then
      { result := none,
        state := { s with apiErrorCount := s.apiErrorCount + 1 },
        networkCalled := true, budgetWrites := 1, logs := [.apiError status] }
    else
      { result := some status,
        state := { s with apiLastSuccess := now2, apiErrorCount := 0 },
        networkCalled := true, budgetWrites := 1, logs := [] }
  | .abortError =>
      { result := none,
        state := { s with apiErrorCount := s.apiErrorCount + 1 },
        networkCalled := true, budgetWrites := 1, logs := [.abortTimeout] }
  | .fetchError code =>
      { result := none,
        state := { s with apiErrorCount := s.apiErrorCount + 1 },
        networkCalled := true, budgetWrites := 1,
        logs :=
          if code = "ECONNREFUSED" then [.connRefused]
          else if code = "ECONNRESET" then [.connReset]
          else if code = "ENOTFOUND" then [.notFound]
          else if logErrors then [.otherFetchError] else [] }

/-- `ProtectApi.fetch` (source lines 615-730). `now` is the `Date.now()`
taken on entry (line 631); `now2` the one a success path would take
(line 685). The throttle logic (lines 633-655): once `apiErrorCount`
reaches `errorLimit`, the call at exactly the limit logs, bumps the
counter past the limit, re-stamps `apiLastSuccess := now` and returns
null; past the limit, calls short-circuit to null while
`apiLastSuccess + retryInterval * 1000 > now`, and otherwise reset the
counter to zero and proceed to the network. -/
def fetch (cfg : Settings) (s : ApiState) (now now2 : Nat)
    (outcome : FetchOutcome) (logErrors decodeResponse : Bool) : FetchRet :=
  if cfg.errorLimit ≤ s.apiErrorCount then
    if s.apiErrorCount = cfg.errorLimit then
      { result := none,
        state := { s with apiErrorCount := s.apiErrorCount + 1,
                          apiLastSuccess := now },
        networkCalled := false, budgetWrites := 1, logs := [.throttling] }
    else if now < s.apiLastSuccess + cfg.retryInterval * 1000 then
      { result := none, state := s, networkCalled := false,
        budgetWrites := 0, logs := [] }
    else
      let r := fetchAfterThrottle { s with apiErrorCount := 0 } now2 outcome
        logErrors decodeResponse
      { r with budgetWrites := r.budgetWrites + 1, logs := .resuming :: r.logs }
  else
    fetchAfterThrottle s now2 outcome logErrors decodeResponse

/-- The concrete settings of the released plugin (`PROTECT_API_ERROR_LIMIT
= 10`, `PROTECT_API_RETRY_INTERVAL = 300` seconds), used for concrete
evaluations. -/
def cfg10 : Settings := { errorLimit := 10, retryInterval := 300 }

/-- A concrete logged-in state with the error counter at the limit. -/
def sAtLimit : ApiState :=
  { apiErrorCount := 10, apiLastSuccess := 4, loggedIn := true,
    loginAge := 3, isAdminUser := true, bootstrap := none,
    cameras_ := none, eventListener := false,
    eventListenerConfigured := false, headersHasCsrf := true,
    headersHasCookie := true }

/-- A concrete state past the error limit (throttling in force), with
`apiLastSuccess = 0`. -/
def sPastLimit : ApiState :=
  { sAtLimit with apiErrorCount := 11, apiLastSuccess := 0 }

/-- A concrete healthy logged-in state (no accumulated errors). -/
def sHealthy : ApiState :=
  { sAtLimit with apiErrorCount := 0 }

/-- Outcome of the `new WebSocket(...)` expression in
`launchUpdatesListener`: a connection object (`opened`), a falsy value
(`falsy`, the `if (!ws)` guard), or a thrown exception (`throws`, landing
in the surrounding `catch`). -/
inductive WsOpen where
  | opened
  | falsy
  | throws
  deriving DecidableEq, Repr

/-- Result of `launchUpdatesListener`: the returned boolean, the new
state, and the log events. -/
structure ListenerRet where
  result : Bool
  state : ApiState
  logs : List LogEvent
  deriving DecidableEq, Repr

/-- `launchUpdatesListener()` (source lines 221-283). The inner `login()`
call is modelled by its boolean result `loginResult` together with the
post-login state `s`. When a listener handle is already recorded the call
is a no-op returning true. Opening the socket: a falsy handle clears the
handle fields and returns false; a connection object is recorded and true
returned; a thrown exception is caught, logged, and the function falls
through to its final `return true` without touching the handle. -/
def launchUpdatesListener (s : ApiState) (loginResult : Bool)
    (openOutcome : WsOpen) : ListenerRet :=
  if !loginResult then { result := false, state := s, logs := [] }
  else if s.eventListener then { result := true, state := s, logs := [] }
  else
    match openOutcome with
    | .falsy =>
        { result := false,
          state := { s with eventListener := false,
                            eventListenerConfigured := false },
          logs := [.updatesConnectFail] }
    | .opened =>
        { result := true, state := { s with eventListener := true },
          logs := [.updatesConnected] }
    | .throws =>
        { result := true, state := s, logs := [.updatesCatchError] }

/-- The login-coalescing latch of `ProtectApi.login` (source lines
156-163): the `pendingLogin` field holds the in-flight promise (as an
identifier), `nextId` supplies fresh promise identifiers, and `started`
records, in order, every `loginWrapped()` run actually started. -/
structure LoginLatch where
  pendingLogin : Option Nat
  nextId : Nat
  started : List Nat
  deriving DecidableEq, Repr

/-- `login()` within one event-loop turn: if no attempt is pending, a
fresh `loginWrapped()` run is started and recorded as pending; either
way the caller receives the pending run's identifier. -/
def login (l : LoginLatch) : LoginLatch × Nat :=
  match l.pendingLogin with
  | some p => (l, p)
  | none =>
      ({ pendingLogin := some l.nextId, nextId := l.nextId + 1,
         started := l.started ++ [l.nextId] }, l.nextId)

/-- The `finally` handler attached to the pending promise: once the
attempt settles — with either outcome — the marker is cleared. -/
def settlePending (l : LoginLatch) (_outcome : Bool) : LoginLatch :=
  { l with pendingLogin := none }

/-- `n` concurrent callers of `login()` arriving before the pending
attempt settles: the final latch and the list of promise identifiers the
callers observe. -/
def loginCalls : Nat → LoginLatch → LoginLatch × List Nat
  | 0, l => (l, [])
  | n + 1, l =>
      let step := login l
      let rest := loginCalls n step.1
      (rest.1, step.2 :: rest.2)

/-- JavaScript `String.split` with a one-character separator, on the
character list: `"a:b"` splits to `["a","b"]`, `""` to `[""]`, and a
trailing separator yields a trailing empty field, exactly as in JS. -/
def splitOnChar (sep : Char) : List Char → List (List Char)
  | [] => [[]]
  | c :: cs =>
      match splitOnChar sep cs with
      | [] => [[c]]
      | h :: t => if c = sep then [] :: h :: t else (c :: h) :: t

/-- JavaScript `s.split(sep)` for a one-character separator. The result
is never empty. -/
def jsSplit (s : String) (sep : Char) : List String :=
  (splitOnChar sep s.data).map String.mk

/-- The permission loop of `checkAdminUserStatus` (source lines 362-380):
each entry is split on ":"; entries whose first field (`permType[0]`) is
not "camera" are skipped; for a camera entry the second field
(`permType[1]`) is split on "," and searched for "write" (breaking out on
success). On an entry with first field "camera" and no second field,
`permType[1].split(",")` throws a `TypeError`, modelled as `.error ()`.
(The empty-split case is unreachable: `jsSplit` never returns `[]`.) -/
def scanPermissions : List String → Except Unit Bool
  | [] => .ok false
  | entry :: rest =>
      match jsSplit entry ':' with
      | [] => scanPermissions rest
      | permType0 :: restFields =>
          if permType0 ≠ "camera" then scanPermissions rest
          else
            match restFields with
            | [] => .error ()
            | perms :: _ =>
                if "write" ∈ jsSplit perms ',' then .ok true
                else scanPermissions rest

/-- The admin criterion in the spec's words, for one permission entry:
its first colon-separated field is "camera" and its second
colon-separated field, split on commas, contains "write". -/
def specCameraWrite (entry : String) : Bool :=
  match jsSplit entry ':' with
  | f :: p :: _ => decide (f = "camera") && decide ("write" ∈ jsSplit p ',')
  | _ => false

/-- The admin criterion in the spec's words, over a permission list: some
entry grants camera write. -/
def specAdmin (perms : List String) : Bool :=
  perms.any specCameraWrite

/-- `checkAdminUserStatus(firstRun)` (source lines 346-394): finds the
authenticated user in the bootstrap, scans their permissions, stores the
new admin status, and logs the initial determination (`adminRequired`, on
first run without admin) or a role change (`roleChange`, on a later run
whose status differs from the prior one). A `TypeError` escaping the scan
escapes the function with the state unchanged (the `isAdminUser`
assignment is after the loop). -/
def checkAdminUserStatus (s : ApiState) (firstRun : Bool) :
    Except ApiState (Bool × ApiState × List LogEvent) :=
  match s.bootstrap with
  | none => .ok (false, s, [])
  | some b =>
      match b.users with
      | none => .ok (false, s, [])
      | some users =>
          let oldAdminStatus := s.isAdminUser
          match users.find? (fun u => u.id == b.authUserId) with
          | none => .ok (false, s, [])
          | some user =>
              match user.allPermissions with
              | none => .ok (false, s, [])
              | some perms =>
                  match scanPermissions perms with
                  | .error _ => .error s
                  | .ok newAdmin =>
                      let s2 := { s with isAdminUser := newAdmin }
                      let logs :=
                        if firstRun && !newAdmin then [LogEvent.adminRequired]
                        else if !firstRun && (oldAdminStatus != newAdmin) then
                          [LogEvent.roleChange newAdmin]
                        else []
                      .ok (true, s2, logs)

/-- `checkCameraState(device)` (source lines 396-413): login must
succeed, the user must be admin, and the device must be a camera. The
inner `login()` is modelled by its result and post-login state. -/
def checkCameraState (s : ApiState) (loginResult : Bool) (device : Camera) : Bool :=
  loginResult && s.isAdminUser && (device.modelKey == "camera")

/-- Whether an `Except`-modelled operation completes without a thrown
exception escaping to the caller. -/
def isOk {ε α : Type} : Except ε α → Bool
  | .ok _ => true
  | .error _ => false

/-- The boolean result of a normally-completing bootstrap-level
operation (`none` when an exception escaped). -/
def okResult : Except ApiState (Bool × ApiState × List LogEvent) → Option Bool
  | .ok (b, _, _) => some b
  | .error _ => none

/-- The final state of a normally-completing bootstrap-level operation
(`none` when an exception escaped). -/
def okState : Except ApiState (Bool × ApiState × List LogEvent) → Option ApiState
  | .ok (_, s, _) => some s
  | .error _ => none

/-- `updateChannels(device)` (source lines 416-449): guarded by
`checkCameraState`; performs a PATCH with `decodeResponse = false`, so
the raw response comes back and the method interprets it itself. A
missing or non-ok response increments the error counter and returns the
device object; an ok response resets the error budget (counter to zero,
`apiLastSuccess` to `now3`) and then decodes the body — a body that fails
to decode throws out of the method, after the budget reset. `body` is the
would-be JSON decode of the response body (`none` = decode throws). -/
def updateChannels (cfg : Settings) (s : ApiState) (loginResult : Bool)
    (device : Camera) (now now2 now3 : Nat) (outcome : FetchOutcome)
    (body : Option Camera) :
    Except ApiState (Option Camera × ApiState × List LogEvent) :=
  if !(checkCameraState s loginResult device) then .ok (none, s, [])
  else
    let r := fetch cfg s now now2 outcome true false
    match r.result with
    | none =>
        .ok (some device,
             { r.state with apiErrorCount := r.state.apiErrorCount + 1 },
             r.logs ++ [.updateChannelsFail])
    | some status =>
        if !(statusOk status) then
          .ok (some device,
               { r.state with apiErrorCount := r.state.apiErrorCount + 1 },
               r.logs ++ [if status = 403 then .insufficientPrivileges
                          else .updateChannelsFail])
        else
          let s2 := { r.state with apiErrorCount := 0, apiLastSuccess := now3 }
          match body with
          | none => .error s2
          | some cam => .ok (some cam, s2, r.logs)

/-- `updateCamera(device, payload)` (source lines 472-504): null device,
failed login or non-admin user return null; otherwise a decoding PATCH is
issued. A null or non-ok response logs and returns null; on an ok
response the body is decoded — a decode failure throws out of the
method. -/
def updateCamera (cfg : Settings) (s : ApiState) (loginResult : Bool)
    (device : Option Camera) (now now2 : Nat) (outcome : FetchOutcome)
    (body : Option Camera) :
    Except ApiState (Option Camera × ApiState × List LogEvent) :=
  match device with
  | none => .ok (none, s, [])
  | some _ =>
      if !loginResult then .ok (none, s, [])
      else if !s.isAdminUser then .ok (none, s, [])
      else
        let r := fetch cfg s now now2 outcome true true
        match r.result with
        | none => .ok (none, r.state, r.logs ++ [.updateCameraFail])
        | some status =>
            if !(statusOk status) then
              .ok (none, r.state, r.logs ++ [.updateCameraFail])
            else
              match body with
              | none => .error r.state
              | some cam => .ok (some cam, r.state, r.logs)

/-- Whether `enableRtsp` finds a channel still to enable: the source's
`device.channels?.some(channel => !channel.isRtspEnabled)` (an undefined
channel list counts as nothing to do). -/
def enableRtspNeedsUpdate (device : Camera) : Bool :=
  match device.channels with
  | none => false
  | some chans => chans.any (fun c => !c.isRtspEnabled)

/-- `enableRtsp(device)` (source lines 452-469): guarded by
`checkCameraState`; if every channel already has RTSP enabled (or there
are none) the device is returned unchanged; otherwise all channels are
switched on and pushed via `updateChannels`. -/
def enableRtsp (cfg : Settings) (s : ApiState) (loginResult : Bool)
    (device : Camera) (now now2 now3 : Nat) (outcome : FetchOutcome)
    (body : Option Camera) :
    Except ApiState (Option Camera × ApiState × List LogEvent) :=
  if !(checkCameraState s loginResult device) then .ok (none, s, [])
  else if !(enableRtspNeedsUpdate device) then .ok (some device, s, [])
  else
    updateChannels cfg s loginResult
      { device with
        channels := some (((device.channels).getD []).map
          (fun c => { c with isRtspEnabled := true })) }
      now now2 now3 outcome body

/-- `bootstrapProtect()` (source lines 166-218): login, then a decoding
GET of the bootstrap URL. A null response, an undecodable body (`body =
none`; the parse error is caught and `data` set to null), or a decoded
payload without a camera list each log, clear the login credentials and
return false. On success the snapshot is stored, the admin status
recomputed (a scan `TypeError` escapes), and the updates listener
launched (its login modelled by `loginResult2`). -/
def bootstrapProtect (cfg : Settings) (s : ApiState) (loginResult : Bool)
    (now now2 : Nat) (outcome : FetchOutcome) (body : Option Bootstrap)
    (loginResult2 : Bool) (openOutcome : WsOpen) :
    Except ApiState (Bool × ApiState × List LogEvent) :=
  if !loginResult then .ok (false, s, [])
  else
    let r := fetch cfg s now now2 outcome true true
    match r.result with
    | none =>
        .ok (false, clearLoginCredentials r.state,
             r.logs ++ [.bootstrapFetchFail])
    | some _ =>
        match body with
        | none =>
            .ok (false, clearLoginCredentials r.state,
                 r.logs ++ [.bootstrapParseFail, .bootstrapNoCameras])
        | some data =>
            match data.cameras with
            | none =>
                .ok (false, clearLoginCredentials r.state,
                     r.logs ++ [.bootstrapNoCameras])
            | some _ =>
                let firstRun := r.state.bootstrap.isNone
                let s2 := { r.state with bootstrap := some data }
                let firstLogs :=
                  if firstRun then [LogEvent.connectedFirstRun] else []
                match checkAdminUserStatus s2 firstRun with
                | .error e => .error e
                | .ok (_, s3, adminLogs) =>
                    let l := launchUpdatesListener s3 loginResult2 openOutcome
                    .ok (l.result, l.state,
                         r.logs ++ firstLogs ++ adminLogs ++ l.logs)

/-- `refreshDevices()` (source lines 286-336): runs `bootstrapProtect`
and propagates false; on success, logs newly discovered managed devices
(present now, absent from the saved list), logs disappeared devices,
saves the new device list and returns true. -/
def refreshDevices (cfg : Settings) (s : ApiState) (loginResult : Bool)
    (now now2 : Nat) (outcome : FetchOutcome) (body : Option Bootstrap)
    (loginResult2 : Bool) (openOutcome : WsOpen) :
    Except ApiState (Bool × ApiState × List LogEvent) :=
  match bootstrapProtect cfg s loginResult now now2 outcome body
      loginResult2 openOutcome with
  | .error e => .error e
  | .ok (false, s1, logs) => .ok (false, s1, logs)
  | .ok (true, s1, logs) =>
      let newDeviceList := s1.bootstrap.bind (fun b => b.cameras)
      let discovered :=
        match newDeviceList with
        | none => []
        | some nl =>
            (nl.filter (fun d =>
              !(match s1.cameras_ with
                | none => false
                | some cs => cs.any (fun x => x.mac == d.mac)) && d.isManaged)).map
              (fun d => LogEvent.discovered d.mac)
      let removed :=
        match s1.cameras_ with
        | none => []
        | some cs =>
            (cs.filter (fun d =>
              !(match newDeviceList with
                | none => false
                | some nl => nl.any (fun x => x.mac == d.mac)))).map
              (fun d => LogEvent.removedDebug d.mac)
      .ok (true, { s1 with cameras_ := newDeviceList },
           logs ++ discovered ++ removed)

/-- A concrete managed camera device. -/
def camA : Camera :=
  { id := "c1", mac := "m1", name := "front", modelKey := "camera",
    isManaged := true, channels := some [{ isRtspEnabled := false }] }

/-- A concrete admin user (camera write permission). -/
def userAdmin : NvrUser :=
  { id := "u1", allPermissions := some ["camera:write,read:*"] }

/-- A concrete bootstrap payload naming `userAdmin` as the authenticated
user. -/
def bootEx : Bootstrap :=
  { cameras := some [camA], users := some [userAdmin], authUserId := "u1",
    lastUpdateId := some "42" }

/-- A user whose permission list has a camera-write entry BEFORE a bare
"camera" entry: the scan breaks at the first entry and never reaches the
bare one. -/
def userMixed : NvrUser :=
  { id := "u1", allPermissions := some ["camera:write,read:*", "camera"] }

/-- A user whose bare "camera" entry is actually reached by the scan. -/
def userBare : NvrUser :=
  { id := "u1", allPermissions := some ["nvr:read:*", "camera"] }

/-- A state holding the concrete bootstrap `bootEx`. -/
def sBootEx : ApiState :=
  { sHealthy with bootstrap := some bootEx }

/-- A bootstrap whose authenticated user is `userMixed`. -/
def bootMixed : Bootstrap :=
  { bootEx with users := some [userMixed] }

/-- A state holding `bootMixed`. -/
def sBootMixed : ApiState :=
  { sHealthy with bootstrap := some bootMixed }

/-- A bootstrap whose authenticated user is `userBare`. -/
def bootBare : Bootstrap :=
  { bootEx with users := some [userBare] }

/-- A state holding `bootBare`. -/
def sBootBare : ApiState :=
  { sHealthy with bootstrap := some bootBare }

/-- `fetchAfterThrottle` always performs the network call: it models the
source from the `fetch(url, options)` call onwards. -/
theorem fetchAfterThrottle_networkCalled (s : ApiState) (now2 : Nat)
    (outcome : FetchOutcome) (logErrors decodeResponse : Bool) :
    (fetchAfterThrottle s now2 outcome logErrors decodeResponse).networkCalled = true := by
  cases outcome with
  | response status =>
      simp only [fetchAfterThrottle]
      split_ifs <;> rfl
  | abortError => rfl
  | fetchError code => rfl

end ProtectApi

namespace ProtectApi

/-- C1: a fetch call arriving with the counter exactly at the error limit
returns null without network I/O, re-stamps `apiLastSuccess` to the entry
time, and pushes the counter past the limit. -/
theorem fetch_at_error_limit (cfg : Settings) (s : ApiState)
    (now now2 : Nat) (outcome : FetchOutcome) (logErrors decodeResponse : Bool)
    (h : s.apiErrorCount = cfg.errorLimit) :
    (fetch cfg s now now2 outcome logErrors decodeResponse).result = none ∧
    (fetch cfg s now now2 outcome logErrors decodeResponse).networkCalled = false ∧
    (fetch cfg s now now2 outcome logErrors decodeResponse).state.apiLastSuccess = now ∧
    (fetch cfg s now now2 outcome logErrors decodeResponse).state.apiErrorCount
      = cfg.errorLimit + 1 := by
  simp [fetch, h]

/-- Witness for C1 at a concrete state. -/
theorem fetch_at_error_limit_witness :
    sAtLimit.apiErrorCount = cfg10.errorLimit ∧
    ((fetch cfg10 sAtLimit 777 778 (.response 200) true true).result = none ∧
     (fetch cfg10 sAtLimit 777 778 (.response 200) true true).networkCalled = false ∧
     (fetch cfg10 sAtLimit 777 778 (.response 200) true true).state.apiLastSuccess = 777 ∧
     (fetch cfg10 sAtLimit 777 778 (.response 200) true true).state.apiErrorCount
        = cfg10.errorLimit + 1) :=
  ⟨by decide, fetch_at_error_limit cfg10 sAtLimit 777 778 (.response 200) true true (by decide)⟩

/-- C2 counterexample: with the counter past the limit and
`now = apiLastSuccess + retryInterval * 1000` exactly, the strict
condition `now > apiLastSuccess + retryInterval * 1000` of the claim
fails, yet the code does NOT short-circuit: it performs the network call
(and returns the response). The resume boundary is non-strict. -/
theorem fetch_resume_boundary_cex :
    cfg10.errorLimit < sPastLimit.apiErrorCount ∧
    ¬ (300000 > sPastLimit.apiLastSuccess + cfg10.retryInterval * 1000) ∧
    (fetch cfg10 sPastLimit 300000 300001 (.response 200) true true).networkCalled = true ∧
    (fetch cfg10 sPastLimit 300000 300001 (.response 200) true true).result = some 200 := by
  decide

/-- C2 amended: while the counter is strictly past the limit, calls with
`now < apiLastSuccess + retryInterval * 1000` are short-circuited to null
with no network I/O and no state change; as soon as
`now ≥ apiLastSuccess + retryInterval * 1000` (non-strict resume), the
counter is reset to zero and the request is actually attempted, behaving
exactly like a fresh call from a zeroed counter (plus the resume log). -/
theorem fetch_throttled_window (cfg : Settings) (s : ApiState)
    (now now2 : Nat) (outcome : FetchOutcome) (logErrors decodeResponse : Bool)
    (h : cfg.errorLimit < s.apiErrorCount) :
    (now < s.apiLastSuccess + cfg.retryInterval * 1000 →
      (fetch cfg s now now2 outcome logErrors decodeResponse).result = none ∧
      (fetch cfg s now now2 outcome logErrors decodeResponse).networkCalled = false ∧
      (fetch cfg s now now2 outcome logErrors decodeResponse).state = s) ∧
    (s.apiLastSuccess + cfg.retryInterval * 1000 ≤ now →
      (fetch cfg s now now2 outcome logErrors decodeResponse).networkCalled = true ∧
      (fetch cfg s now now2 outcome logErrors decodeResponse).result
        = (fetchAfterThrottle { s with apiErrorCount := 0 } now2 outcome
            logErrors decodeResponse).result ∧
      (fetch cfg s now now2 outcome logErrors decodeResponse).state
        = (fetchAfterThrottle { s with apiErrorCount := 0 } now2 outcome
            logErrors decodeResponse).state ∧
      (fetch cfg s now now2 outcome logErrors decodeResponse).logs
        = .resuming :: (fetchAfterThrottle { s with apiErrorCount := 0 } now2 outcome
            logErrors decodeResponse).logs) := by
  have hge : cfg.errorLimit ≤ s.apiErrorCount := le_of_lt h
  have hne : ¬ s.apiErrorCount = cfg.errorLimit := by omega
  refine ⟨fun hlt => ?_, fun hge2 => ?_⟩
  · simp [fetch, hge, hne, hlt]
  · have hnlt : ¬ now < s.apiLastSuccess + cfg.retryInterval * 1000 := by omega
    simp [fetch, hge, hne, hnlt, fetchAfterThrottle_networkCalled]

/-- Witness for C2 amended: the short-circuit branch at a concrete
throttled state. -/
theorem fetch_throttled_window_witness :
    cfg10.errorLimit < sPastLimit.apiErrorCount ∧
    ((fetch cfg10 sPastLimit 5 6 (.response 200) true true).result = none ∧
     (fetch cfg10 sPastLimit 5 6 (.response 200) true true).networkCalled = false ∧
     (fetch cfg10 sPastLimit 5 6 (.response 200) true true).state = sPastLimit) :=
  ⟨by decide,
   (fetch_throttled_window cfg10 sPastLimit 5 6 (.response 200) true true
     (by decide)).1 (by decide)⟩

/-- C3 counterexample: a 401 received by a decoding fetch returns null
and increments the error counter, but does NOT invalidate the session:
`loggedIn` and the session headers are untouched (the source's 401 branch
never calls `clearLoginCredentials`). -/
theorem fetch_401_session_kept_cex :
    sHealthy.apiErrorCount < cfg10.errorLimit ∧
    sHealthy.loggedIn = true ∧
    (fetch cfg10 sHealthy 5 6 (.response 401) true true).result = none ∧
    (fetch cfg10 sHealthy 5 6 (.response 401) true true).state.loggedIn = true ∧
    (fetch cfg10 sHealthy 5 6 (.response 401) true true).state.headersHasCookie = true ∧
    (fetch cfg10 sHealthy 5 6 (.response 401) true true).state.headersHasCsrf = true := by
  decide

/-- C3 amended: a 401 on a decoding, unthrottled fetch is classified as
an authentication failure (the invalid-credentials error is logged), the
call returns null, and the error counter is incremented — but the session
state (`loggedIn`, headers) is left untouched; fetch itself does not
invalidate the session. -/
theorem fetch_401_classified (cfg : Settings) (s : ApiState)
    (now now2 : Nat) (logErrors : Bool)
    (h : s.apiErrorCount < cfg.errorLimit) :
    (fetch cfg s now now2 (.response 401) logErrors true).result = none ∧
    (fetch cfg s now now2 (.response 401) logErrors true).logs = [.invalidLogin] ∧
    (fetch cfg s now now2 (.response 401) logErrors true).state
      = { s with apiErrorCount := s.apiErrorCount + 1 } := by
  have hnle : ¬ cfg.errorLimit ≤ s.apiErrorCount := by omega
  simp [fetch, hnle, fetchAfterThrottle]

/-- Witness for C3 amended at a concrete state. -/
theorem fetch_401_classified_witness :
    sHealthy.apiErrorCount < cfg10.errorLimit ∧
    ((fetch cfg10 sHealthy 5 6 (.response 401) true true).result = none ∧
     (fetch cfg10 sHealthy 5 6 (.response 401) true true).logs = [.invalidLogin] ∧
     (fetch cfg10 sHealthy 5 6 (.response 401) true true).state
       = { sHealthy with apiErrorCount := sHealthy.apiErrorCount + 1 }) :=
  ⟨by decide, fetch_401_classified cfg10 sHealthy 5 6 true (by decide)⟩

/-- C4 counterexample: an unthrottled fetch with `decodeResponse = false`
whose transport completes performs the network call but performs ZERO
error-budget updates — the raw response is handed back and the budget is
the caller's responsibility, contradicting "every outcome updates
ErrorBudget exactly once". -/
theorem fetch_budget_writes_cex :
    sHealthy.apiErrorCount < cfg10.errorLimit ∧
    (fetch cfg10 sHealthy 5 6 (.response 500) true false).networkCalled = true ∧
    (fetch cfg10 sHealthy 5 6 (.response 500) true false).budgetWrites = 0 ∧
    (fetch cfg10 sHealthy 5 6 (.response 500) true false).state = sHealthy := by
  decide

/-- C4 amended: on an unthrottled fetch, every outcome of a decoding call
(success, 401, 403, other HTTP error, transport error, timeout) updates
the error budget exactly once; with `decodeResponse = false` a completed
transport returns the raw response with zero budget updates (the caller
takes responsibility), while transport errors and timeouts still update
exactly once. -/
theorem fetch_budget_writes (cfg : Settings) (s : ApiState)
    (now now2 : Nat) (outcome : FetchOutcome) (logErrors decodeResponse : Bool)
    (h : s.apiErrorCount < cfg.errorLimit) :
    (decodeResponse = true →
      (fetch cfg s now now2 outcome logErrors decodeResponse).budgetWrites = 1) ∧
    (decodeResponse = false →
      (fetch cfg s now now2 outcome logErrors decodeResponse).budgetWrites
        = match outcome with
          | .response _ => 0
          | .abortError => 1
          | .fetchError _ => 1) := by
  have hnle : ¬ cfg.errorLimit ≤ s.apiErrorCount := by omega
  refine ⟨fun hd => ?_, fun hd => ?_⟩ <;> subst hd <;>
    simp only [fetch, if_neg hnle] <;>
    cases outcome <;> simp only [fetchAfterThrottle] <;> split_ifs <;>
      simp_all

/-- Witness for C4 amended at a concrete state and outcome. -/
theorem fetch_budget_writes_witness :
    sHealthy.apiErrorCount < cfg10.errorLimit ∧
    ((true = true →
      (fetch cfg10 sHealthy 5 6 .abortError true true).budgetWrites = 1) ∧
     (true = false →
      (fetch cfg10 sHealthy 5 6 .abortError true true).budgetWrites
        = match FetchOutcome.abortError with
          | .response _ => 0
          | .abortError => 1
          | .fetchError _ => 1)) :=
  ⟨by decide, fetch_budget_writes cfg10 sHealthy 5 6 .abortError true true (by decide)⟩

/-- C5 counterexample: with login succeeded, no listener recorded, and
the `new WebSocket` call throwing, the exception is caught and logged but
`launchUpdatesListener` returns TRUE (the catch block falls through to
the final `return true`), not false as claimed. -/
theorem launchUpdatesListener_throw_cex :
    sHealthy.eventListener = false ∧
    (launchUpdatesListener sHealthy true .throws).result = true ∧
    (launchUpdatesListener sHealthy true .throws).state = sHealthy ∧
    (launchUpdatesListener sHealthy true .throws).logs = [.updatesCatchError] := by
  decide

/-- C5 amended: `launchUpdatesListener` is a no-op returning true when a
listener handle is already recorded (and login succeeds); a failed login
returns false untouched; a falsy connection handle clears the handle
fields and returns false; but an exception thrown while opening the
socket is caught, logged, and the call returns TRUE with the handle left
as it was — no error propagates to the caller in any case. -/
theorem launchUpdatesListener_cases (s : ApiState) (openOutcome : WsOpen) :
    (launchUpdatesListener s false openOutcome
      = { result := false, state := s, logs := [] }) ∧
    (s.eventListener = true →
      launchUpdatesListener s true openOutcome
        = { result := true, state := s, logs := [] }) ∧
    (s.eventListener = false →
      launchUpdatesListener s true .falsy
        = { result := false,
            state := { s with eventListener := false,
                              eventListenerConfigured := false },
            logs := [.updatesConnectFail] } ∧
      launchUpdatesListener s true .throws
        = { result := true, state := s, logs := [.updatesCatchError] } ∧
      launchUpdatesListener s true .opened
        = { result := true, state := { s with eventListener := true },
            logs := [.updatesConnected] }) := by
  refine ⟨by simp [launchUpdatesListener], fun h => ?_, fun h => ?_⟩
  · cases openOutcome <;> simp [launchUpdatesListener, h]
  · exact ⟨by simp [launchUpdatesListener, h],
           by simp [launchUpdatesListener, h],
           by simp [launchUpdatesListener, h]⟩

/-- Witness for C5 amended: the already-connected no-op at a concrete
state. -/
theorem launchUpdatesListener_cases_witness :
    ({ sHealthy with eventListener := true } : ApiState).eventListener = true ∧
    launchUpdatesListener { sHealthy with eventListener := true } true .opened
      = { result := true, state := { sHealthy with eventListener := true },
          logs := [] } :=
  ⟨by decide,
   (launchUpdatesListener_cases { sHealthy with eventListener := true }
     .opened).2.1 (by decide)⟩

/-- Helper for C7: once an attempt is pending, further `login()` calls
change nothing and every caller observes the pending identifier. -/
theorem loginCalls_pending (n : Nat) (l : LoginLatch) (p : Nat)
    (h : l.pendingLogin = some p) :
    loginCalls n l = (l, List.replicate n p) := by
  induction n with
  | zero => simp [loginCalls]
  | succ n ih => simp [loginCalls, login, h, ih, List.replicate_succ]

/-- C7: for any positive number of `login()` callers arriving while no
attempt is pending, exactly one `loginWrapped` run is started (`started`
grows by exactly one identifier), every caller observes that single run's
promise, and the pending marker is cleared when the attempt settles,
whatever its boolean outcome. -/
theorem login_coalesces (n : Nat) (l : LoginLatch)
    (h : l.pendingLogin = none) (hn : 0 < n) :
    (loginCalls n l).2 = List.replicate n l.nextId ∧
    (loginCalls n l).1.started = l.started ++ [l.nextId] ∧
    (loginCalls n l).1.pendingLogin = some l.nextId ∧
    ∀ outcome : Bool,
      (settlePending (loginCalls n l).1 outcome).pendingLogin = none := by
  cases n with
  | zero => omega
  | succ m =>
      have hstep : login l
          = ({ pendingLogin := some l.nextId, nextId := l.nextId + 1,
               started := l.started ++ [l.nextId] }, l.nextId) := by
        simp [login, h]
      have hrest := loginCalls_pending m
        { pendingLogin := some l.nextId, nextId := l.nextId + 1,
          started := l.started ++ [l.nextId] } l.nextId rfl
      simp [loginCalls, hstep, hrest, settlePending, List.replicate_succ]

/-- Witness for C7 with three concurrent callers on a fresh latch. -/
theorem login_coalesces_witness :
    (({ pendingLogin := none, nextId := 0, started := [] } : LoginLatch).pendingLogin
        = none ∧ 0 < 3) ∧
    ((loginCalls 3 { pendingLogin := none, nextId := 0, started := [] }).2
        = List.replicate 3 0 ∧
     (loginCalls 3 { pendingLogin := none, nextId := 0, started := [] }).1.started
        = [] ++ [0] ∧
     (loginCalls 3 { pendingLogin := none, nextId := 0, started := [] }).1.pendingLogin
        = some 0 ∧
     ∀ outcome : Bool,
       (settlePending
         (loginCalls 3 { pendingLogin := none, nextId := 0, started := [] }).1
         outcome).pendingLogin = none) :=
  ⟨⟨rfl, by decide⟩,
   login_coalesces 3 { pendingLogin := none, nextId := 0, started := [] }
     rfl (by decide)⟩

/-- Helper: `bootstrapProtect` when the bootstrap fetch returns null. -/
theorem bootstrapProtect_fetchFail (cfg : Settings) (s : ApiState)
    (now now2 : Nat) (outcome : FetchOutcome) (body : Option Bootstrap)
    (loginResult2 : Bool) (openOutcome : WsOpen)
    (hres : (fetch cfg s now now2 outcome true true).result = none) :
    bootstrapProtect cfg s true now now2 outcome body loginResult2 openOutcome
      = .ok (false,
             clearLoginCredentials (fetch cfg s now now2 outcome true true).state,
             (fetch cfg s now now2 outcome true true).logs
               ++ [.bootstrapFetchFail]) := by
  simp [bootstrapProtect, hres]

/-- Helper: `bootstrapProtect` when the response arrives but its body
cannot be decoded as JSON. -/
theorem bootstrapProtect_parseFail (cfg : Settings) (s : ApiState)
    (now now2 : Nat) (outcome : FetchOutcome) (st : Nat)
    (loginResult2 : Bool) (openOutcome : WsOpen)
    (hres : (fetch cfg s now now2 outcome true true).result = some st) :
    bootstrapProtect cfg s true now now2 outcome none loginResult2 openOutcome
      = .ok (false,
             clearLoginCredentials (fetch cfg s now now2 outcome true true).state,
             (fetch cfg s now now2 outcome true true).logs
               ++ [.bootstrapParseFail, .bootstrapNoCameras]) := by
  simp [bootstrapProtect, hres]

/-- Helper: `bootstrapProtect` when the decoded payload has no camera
list. -/
theorem bootstrapProtect_noCameras (cfg : Settings) (s : ApiState)
    (now now2 : Nat) (outcome : FetchOutcome) (st : Nat) (data : Bootstrap)
    (loginResult2 : Bool) (openOutcome : WsOpen)
    (hres : (fetch cfg s now now2 outcome true true).result = some st)
    (hc : data.cameras = none) :
    bootstrapProtect cfg s true now now2 outcome (some data) loginResult2 openOutcome
      = .ok (false,
             clearLoginCredentials (fetch cfg s now now2 outcome true true).state,
             (fetch cfg s now now2 outcome true true).logs
               ++ [.bootstrapNoCameras]) := by
  simp [bootstrapProtect, hres, hc]

/-- Helper: a non-exceptional false from `bootstrapProtect` passes
through `refreshDevices` unchanged. -/
theorem refreshDevices_of_bootstrap_false (cfg : Settings) (s : ApiState)
    (loginResult : Bool) (now now2 : Nat) (outcome : FetchOutcome)
    (body : Option Bootstrap) (loginResult2 : Bool) (openOutcome : WsOpen)
    (s1 : ApiState) (logs : List LogEvent)
    (h : bootstrapProtect cfg s loginResult now now2 outcome body
      loginResult2 openOutcome = .ok (false, s1, logs)) :
    refreshDevices cfg s loginResult now now2 outcome body loginResult2 openOutcome
      = .ok (false, s1, logs) := by
  simp [refreshDevices, h]

/-- C8: after a successful login, each of the three bootstrap failure
cases — the fetch returns null, the body cannot be decoded, or the
decoded payload lacks a camera list — makes `bootstrapProtect` (and hence
`refreshDevices`) return false with the session cleared via
`clearLoginCredentials`. -/
theorem bootstrapProtect_failures_clear (cfg : Settings) (s : ApiState)
    (now now2 : Nat) (outcome : FetchOutcome) (body : Option Bootstrap)
    (loginResult2 : Bool) (openOutcome : WsOpen)
    (h : (fetch cfg s now now2 outcome true true).result = none ∨ body = none ∨
         (∃ data, body = some data ∧ data.cameras = none)) :
    okResult (bootstrapProtect cfg s true now now2 outcome body
        loginResult2 openOutcome) = some false ∧
    okState (bootstrapProtect cfg s true now now2 outcome body
        loginResult2 openOutcome)
      = some (clearLoginCredentials (fetch cfg s now now2 outcome true true).state) ∧
    okResult (refreshDevices cfg s true now now2 outcome body
        loginResult2 openOutcome) = some false ∧
    okState (refreshDevices cfg s true now now2 outcome body
        loginResult2 openOutcome)
      = some (clearLoginCredentials (fetch cfg s now now2 outcome true true).state) := by
  have hexists : ∃ logs, bootstrapProtect cfg s true now now2 outcome body
      loginResult2 openOutcome
      = .ok (false,
             clearLoginCredentials (fetch cfg s now now2 outcome true true).state,
             logs) := by
    cases hres : (fetch cfg s now now2 outcome true true).result with
    | none =>
        exact ⟨_, bootstrapProtect_fetchFail cfg s now now2 outcome body
          loginResult2 openOutcome hres⟩
    | some st =>
        rcases h with h1 | h2 | ⟨data, hd, hc⟩
        · rw [hres] at h1
          exact absurd h1 (by simp)
        · subst h2
          exact ⟨_, bootstrapProtect_parseFail cfg s now now2 outcome st
            loginResult2 openOutcome hres⟩
        · subst hd
          exact ⟨_, bootstrapProtect_noCameras cfg s now now2 outcome st data
            loginResult2 openOutcome hres hc⟩
  obtain ⟨logs, hb⟩ := hexists
  have hr := refreshDevices_of_bootstrap_false cfg s true now now2 outcome body
    loginResult2 openOutcome _ logs hb
  simp [hb, hr, okResult, okState]

/-- Witness for C8: a refused connection on the bootstrap fetch. -/
theorem bootstrapProtect_failures_clear_witness :
    ((fetch cfg10 sBootEx 5 6 (.fetchError "ECONNREFUSED") true true).result = none ∨
     (none : Option Bootstrap) = none ∨
     (∃ data, (none : Option Bootstrap) = some data ∧ data.cameras = none)) ∧
    (okResult (bootstrapProtect cfg10 sBootEx true 5 6 (.fetchError "ECONNREFUSED")
        none true .opened) = some false ∧
     okState (bootstrapProtect cfg10 sBootEx true 5 6 (.fetchError "ECONNREFUSED")
        none true .opened)
       = some (clearLoginCredentials
           (fetch cfg10 sBootEx 5 6 (.fetchError "ECONNREFUSED") true true).state) ∧
     okResult (refreshDevices cfg10 sBootEx true 5 6 (.fetchError "ECONNREFUSED")
        none true .opened) = some false ∧
     okState (refreshDevices cfg10 sBootEx true 5 6 (.fetchError "ECONNREFUSED")
        none true .opened)
       = some (clearLoginCredentials
           (fetch cfg10 sBootEx 5 6 (.fetchError "ECONNREFUSED") true true).state)) :=
  ⟨Or.inl (by decide),
   bootstrapProtect_failures_clear cfg10 sBootEx 5 6 (.fetchError "ECONNREFUSED")
     none true .opened (Or.inl (by decide))⟩

/-- Helper for C9: on a permission list none of whose entries is the bare
split `["camera"]`, the source's scan loop computes exactly the spec's
criterion (some entry with first field "camera" whose second field, split
on commas, contains "write"), without throwing. -/
theorem scanPermissions_eq_spec (perms : List String)
    (hwf : ∀ e ∈ perms, jsSplit e ':' ≠ ["camera"]) :
    scanPermissions perms = .ok (specAdmin perms) := by
  induction perms with
  | nil => rfl
  | cons e rest ih =>
      have hrest := ih (fun x hx => hwf x (List.mem_cons_of_mem _ hx))
      cases hsp : jsSplit e ':' with
      | nil => simp [scanPermissions, specAdmin, specCameraWrite, hsp, hrest]
      | cons f fields =>
          by_cases hcam : f = "camera"
          · subst hcam
            cases fields with
            | nil => exact absurd hsp (hwf e (List.mem_cons_self _ _))
            | cons p t =>
                by_cases hw : "write" ∈ jsSplit p ','
                · simp [scanPermissions, specAdmin, specCameraWrite, hsp, hw]
                · simp [scanPermissions, specAdmin, specCameraWrite, hsp, hw,
                    hrest]
          · cases fields <;>
              simp [scanPermissions, specAdmin, specCameraWrite, hsp, hcam,
                hrest]

/-- C9: for a bootstrap naming an authenticated user whose permission
entries are well-formed (every camera entry has a second field),
`checkAdminUserStatus` completes, stores admin status exactly when some
entry has first colon-field "camera" and a comma-separated "write" in its
second colon-field, and reports: on a later run whose status differs from
the prior one, a role-change message (distinct from the first-run
message); examples: "camera:read:*" yields non-admin,
"camera:write,read:*" yields admin. -/
theorem checkAdminUserStatus_spec (s : ApiState) (b : Bootstrap)
    (users : List NvrUser) (user : NvrUser) (perms : List String)
    (firstRun : Bool)
    (hb : s.bootstrap = some b) (hu : b.users = some users)
    (hf : users.find? (fun u => u.id == b.authUserId) = some user)
    (hp : user.allPermissions = some perms)
    (hwf : ∀ e ∈ perms, jsSplit e ':' ≠ ["camera"]) :
    checkAdminUserStatus s firstRun
      = .ok (true, { s with isAdminUser := specAdmin perms },
          if firstRun && !(specAdmin perms) then [LogEvent.adminRequired]
          else if !firstRun && (s.isAdminUser != specAdmin perms) then
            [LogEvent.roleChange (specAdmin perms)]
          else []) ∧
    scanPermissions ["camera:read:*"] = .ok false ∧
    scanPermissions ["camera:write,read:*"] = .ok true := by
  refine ⟨?_, rfl, rfl⟩
  simp only [checkAdminUserStatus, hb, hu, hf, hp,
    scanPermissions_eq_spec perms hwf]

/-- Witness for C9: the concrete bootstrap `bootEx` with the concrete
admin user on a non-first run. -/
theorem checkAdminUserStatus_spec_witness :
    (sBootEx.bootstrap = some bootEx ∧
     bootEx.users = some [userAdmin] ∧
     [userAdmin].find? (fun u => u.id == bootEx.authUserId) = some userAdmin ∧
     userAdmin.allPermissions = some ["camera:write,read:*"] ∧
     (∀ e ∈ ["camera:write,read:*"], jsSplit e ':' ≠ ["camera"])) ∧
    (checkAdminUserStatus sBootEx false
      = .ok (true,
          { sBootEx with isAdminUser := specAdmin ["camera:write,read:*"] },
          if false && !(specAdmin ["camera:write,read:*"]) then
            [LogEvent.adminRequired]
          else if !false
              && (sBootEx.isAdminUser != specAdmin ["camera:write,read:*"]) then
            [LogEvent.roleChange (specAdmin ["camera:write,read:*"])]
          else []) ∧
     scanPermissions ["camera:read:*"] = .ok false ∧
     scanPermissions ["camera:write,read:*"] = .ok true) :=
  ⟨⟨rfl, rfl, by decide, rfl, by decide⟩,
   checkAdminUserStatus_spec sBootEx bootEx [userAdmin] userAdmin
     ["camera:write,read:*"] false rfl rfl (by decide) rfl (by decide)⟩

/-- C10 counterexample: `userMixed`'s permission list contains the bare
entry "camera", yet `checkAdminUserStatus` does NOT throw: the scan
breaks at the earlier "camera:write,read:*" entry before reaching the
bare one. Containing a bare "camera" entry is not sufficient for the
`TypeError`. -/
theorem checkAdminUserStatus_bare_camera_cex :
    "camera" ∈ (userMixed.allPermissions.getD []) ∧
    isOk (checkAdminUserStatus sBootMixed false) = true := by
  decide

/-- Helper for C10: if no entry of the prefix grants camera write, the
scan reaches the bare "camera" entry (or crashes on an earlier bare
camera entry) and throws. -/
theorem scanPermissions_reaches_bare (l1 l2 : List String)
    (hno : ∀ e ∈ l1, specCameraWrite e = false) :
    scanPermissions (l1 ++ "camera" :: l2) = .error () := by
  induction l1 with
  | nil =>
      have h1 : jsSplit "camera" ':' = ["camera"] := by decide
      simp [scanPermissions, h1]
  | cons e l1' ih =>
      have he := hno e (List.mem_cons_self _ _)
      have hrest := ih (fun x hx => hno x (List.mem_cons_of_mem _ hx))
      cases hsp : jsSplit e ':' with
      | nil => simp [scanPermissions, hsp, hrest]
      | cons f fields =>
          by_cases hcam : f = "camera"
          · subst hcam
            cases fields with
            | nil => simp [scanPermissions, hsp]
            | cons p t =>
                have hw : ¬ ("write" ∈ jsSplit p ',') := by
                  simp [specCameraWrite, hsp] at he
                  exact he
                simp [scanPermissions, hsp, hw, hrest]
          · cases fields <;> simp [scanPermissions, hsp, hcam, hrest]

/-- C10 amended: the call throws exactly when the scan REACHES a bare
camera entry: if the permission list is a prefix granting no camera
write, followed by the bare entry "camera", then
`permType[1].split(",")` throws the `TypeError` and it escapes
`checkAdminUserStatus` with the state unchanged. -/
theorem checkAdminUserStatus_bare_camera_throws (s : ApiState) (b : Bootstrap)
    (users : List NvrUser) (user : NvrUser) (l1 l2 : List String)
    (firstRun : Bool)
    (hb : s.bootstrap = some b) (hu : b.users = some users)
    (hf : users.find? (fun u => u.id == b.authUserId) = some user)
    (hp : user.allPermissions = some (l1 ++ "camera" :: l2))
    (hno : ∀ e ∈ l1, specCameraWrite e = false) :
    checkAdminUserStatus s firstRun = .error s := by
  simp [checkAdminUserStatus, hb, hu, hf, hp,
    scanPermissions_reaches_bare l1 l2 hno]

/-- Witness for C10 amended: the bare entry of `userBare` is reached
(the preceding "nvr:read:*" entry grants nothing) and the call throws. -/
theorem checkAdminUserStatus_bare_camera_throws_witness :
    (sBootBare.bootstrap = some bootBare ∧
     bootBare.users = some [userBare] ∧
     [userBare].find? (fun u => u.id == bootBare.authUserId) = some userBare ∧
     userBare.allPermissions = some (["nvr:read:*"] ++ "camera" :: []) ∧
     (∀ e ∈ ["nvr:read:*"], specCameraWrite e = false)) ∧
    checkAdminUserStatus sBootBare false = .error sBootBare :=
  ⟨⟨rfl, rfl, by decide, by decide, by decide⟩,
   checkAdminUserStatus_bare_camera_throws sBootBare bootBare [userBare]
     userBare ["nvr:read:*"] [] false rfl rfl (by decide) (by decide) (by decide)⟩

/-- Helper for C6: `updateChannels` lets an exception escape exactly when
the camera-state check passes, the PATCH transport completes with a 2xx
status, and the response body fails to decode. -/
theorem updateChannels_throw_iff (cfg : Settings) (s : ApiState)
    (loginResult : Bool) (device : Camera) (now now2 now3 : Nat)
    (outcome : FetchOutcome) (body : Option Camera) :
    isOk (updateChannels cfg s loginResult device now now2 now3 outcome body)
        = false
      ↔ (checkCameraState s loginResult device = true ∧
         (∃ st, (fetch cfg s now now2 outcome true false).result = some st ∧
            statusOk st = true) ∧
         body = none) := by
  by_cases hc : checkCameraState s loginResult device = true
  · cases hres : (fetch cfg s now now2 outcome true false).result with
    | none => simp [updateChannels, hc, hres, isOk]
    | some st =>
        by_cases hok : statusOk st = true
        · cases body with
          | none => simp [updateChannels, hc, hres, hok, isOk]
          | some cam => simp [updateChannels, hc, hres, hok, isOk]
        · simp [updateChannels, hc, hres, hok, isOk]
  · simp [updateChannels, hc, isOk]

/-- Helper for C6: `updateCamera` lets an exception escape exactly when
the device is present, login and admin checks pass, the PATCH completes
with a 2xx status, and the body fails to decode. -/
theorem updateCamera_throw_iff (cfg : Settings) (s : ApiState)
    (loginResult : Bool) (odev : Option Camera) (now now2 : Nat)
    (outcome : FetchOutcome) (body : Option Camera) :
    isOk (updateCamera cfg s loginResult odev now now2 outcome body) = false
      ↔ (odev ≠ none ∧ loginResult = true ∧ s.isAdminUser = true ∧
         (∃ st, (fetch cfg s now now2 outcome true true).result = some st ∧
            statusOk st = true) ∧
         body = none) := by
  cases odev with
  | none => simp [updateCamera, isOk]
  | some dev =>
      cases loginResult with
      | false => simp [updateCamera, isOk]
      | true =>
          by_cases ha : s.isAdminUser = true
          · cases hres : (fetch cfg s now now2 outcome true true).result with
            | none => simp [updateCamera, ha, hres, isOk]
            | some st =>
                by_cases hok : statusOk st = true
                · cases body with
                  | none => simp [updateCamera, ha, hres, hok, isOk]
                  | some cam => simp [updateCamera, ha, hres, hok, isOk]
                · simp [updateCamera, ha, hres, hok, isOk]
          · simp [updateCamera, ha, isOk]

/-- Helper for C6: `enableRtsp` throws exactly when it delegates to
`updateChannels` (some channel still disabled) and that call throws. -/
theorem enableRtsp_throw_iff (cfg : Settings) (s : ApiState)
    (loginResult : Bool) (device : Camera) (now now2 now3 : Nat)
    (outcome : FetchOutcome) (body : Option Camera) :
    isOk (enableRtsp cfg s loginResult device now now2 now3 outcome body)
        = false
      ↔ (checkCameraState s loginResult device = true ∧
         enableRtspNeedsUpdate device = true ∧
         (∃ st, (fetch cfg s now now2 outcome true false).result = some st ∧
            statusOk st = true) ∧
         body = none) := by
  have hcc : ∀ chans : Option (List Channel),
      checkCameraState s loginResult { device with channels := chans }
        = checkCameraState s loginResult device := fun _ => rfl
  by_cases hc : checkCameraState s loginResult device = true
  · by_cases hn : enableRtspNeedsUpdate device = true
    · simp [enableRtsp, hc, hn, updateChannels_throw_iff, hcc]
    · simp [enableRtsp, hc, hn, isOk]
  · simp [enableRtsp, hc, isOk]

/-- Helper for C6: with an undecodable bootstrap body, `refreshDevices`
returns false without an exception for every input (bootstrapProtect
catches the parse error). -/
theorem refreshDevices_bodyNone (cfg : Settings) (s : ApiState)
    (loginResult : Bool) (now now2 : Nat) (outcome : FetchOutcome)
    (loginResult2 : Bool) (openOutcome : WsOpen) :
    okResult (refreshDevices cfg s loginResult now now2 outcome none
      loginResult2 openOutcome) = some false := by
  cases loginResult with
  | false =>
      have hb : bootstrapProtect cfg s false now now2 outcome none
          loginResult2 openOutcome = .ok (false, s, []) := by
        simp [bootstrapProtect]
      simp [refreshDevices, hb, okResult]
  | true =>
      cases hres : (fetch cfg s now now2 outcome true true).result with
      | none =>
          have hb := bootstrapProtect_fetchFail cfg s now now2 outcome none
            loginResult2 openOutcome hres
          simp [refreshDevices, hb, okResult]
      | some st =>
          have hb := bootstrapProtect_parseFail cfg s now now2 outcome st
            loginResult2 openOutcome hres
          simp [refreshDevices, hb, okResult]

/-- C6 counterexample: a 2xx PATCH response whose body cannot be decoded
as JSON makes `updateChannels` throw — the decode exception escapes to
the caller instead of a null/boolean sentinel. -/
theorem updateChannels_decode_throw_cex :
    statusOk 200 = true ∧
    checkCameraState sHealthy true camA = true ∧
    isOk (updateChannels cfg10 sHealthy true camA 5 6 7 (.response 200) none)
      = false := by
  decide

/-- C6 amended: transport errors, timeouts, throttling and non-2xx
statuses are absorbed and reported as null/boolean sentinels by
`updateChannels`, `updateCamera`, `enableRtsp` and `refreshDevices`; the
one exception that does escape is a 2xx response whose body fails to
decode in `updateChannels`, `updateCamera` and `enableRtsp` (via
`updateChannels`) — while `refreshDevices` catches its bootstrap decode
failure and returns false. -/
theorem operations_throw_only_on_decode (cfg : Settings) (s : ApiState)
    (loginResult : Bool) (device : Camera) (odev : Option Camera)
    (now now2 now3 : Nat) (outcome : FetchOutcome) (body : Option Camera)
    (loginResult2 : Bool) (openOutcome : WsOpen) :
    (isOk (updateChannels cfg s loginResult device now now2 now3 outcome body)
        = false
      ↔ (checkCameraState s loginResult device = true ∧
         (∃ st, (fetch cfg s now now2 outcome true false).result = some st ∧
            statusOk st = true) ∧
         body = none)) ∧
    (isOk (updateCamera cfg s loginResult odev now now2 outcome body) = false
      ↔ (odev ≠ none ∧ loginResult = true ∧ s.isAdminUser = true ∧
         (∃ st, (fetch cfg s now now2 outcome true true).result = some st ∧
            statusOk st = true) ∧
         body = none)) ∧
    (isOk (enableRtsp cfg s loginResult device now now2 now3 outcome body)
        = false
      ↔ (checkCameraState s loginResult device = true ∧
         enableRtspNeedsUpdate device = true ∧
         (∃ st, (fetch cfg s now now2 outcome true false).result = some st ∧
            statusOk st = true) ∧
         body = none)) ∧
    okResult (refreshDevices cfg s loginResult now now2 outcome none
      loginResult2 openOutcome) = some false :=
  ⟨updateChannels_throw_iff cfg s loginResult device now now2 now3 outcome body,
   updateCamera_throw_iff cfg s loginResult odev now now2 outcome body,
   enableRtsp_throw_iff cfg s loginResult device now now2 now3 outcome body,
   refreshDevices_bodyNone cfg s loginResult now now2 outcome
     loginResult2 openOutcome⟩

end ProtectApi
